import Mathlib

/-!
Verification of the credential-synchronization core of the computer-inventory
backend: the 1Password secret builder and sync service
(`app/services/onepassword.py`), the asset upsert / natural-key matcher
(`app/crud.py`), and the JSON-safety normalization and vault error-handling of
the upsert endpoint (`app/routers/assets.py`).

Python values are shallowly embedded: optional arguments become `Option`,
dictionaries with a fixed key set become structures whose fields are `Option`
(key present or absent), string truthiness becomes inequality with the empty
string, and `str.strip()` becomes `String.trim`.
-/

/-- Python truthiness of an optional string: `None` and the empty string are
falsy, every other string is truthy. -/
def optTruthy : Option String → Bool
  | none => false
  | some s => s ≠ ""

/-- Python's `str.strip()` on the underlying character list: drop whitespace
from both ends. -/
def stripChars (l : List Char) : List Char :=
  ((l.dropWhile Char.isWhitespace).reverse.dropWhile Char.isWhitespace).reverse

/-- Python's `str.strip()`. -/
def pyStrip (s : String) : String :=
  String.mk (stripChars s.data)

/-- Management controller row, with the fields read by the secret builder
(`models.ManagementController`). -/
structure ManagementController where
  type : String
  address : String
  port : Nat
  ui_url : Option String
deriving Repr, DecidableEq

/-- A credential-override dictionary (`mgmt_credentials` / `os_credentials`):
each field is `some v` when the key is present in the dict with value `v`. -/
structure CredDict where
  username : Option String := none
  password : Option String := none
  ssh_key : Option String := none
deriving Repr, DecidableEq

/-- One entry of the `fields` array of a 1Password item payload. -/
structure SecretField where
  id : String
  label : String
  type : String
  value : String
deriving Repr, DecidableEq

/-- One entry of the `urls` array of a 1Password item payload. -/
structure SecretUrl where
  label : String
  primary : Bool
  href : String
deriving Repr, DecidableEq

/-- The 1Password item payload assembled by `_build_secret_data`.  The source
adds the `urls` key only when the list is non-empty; an absent key is modelled
as the empty list. -/
structure SecretData where
  title : String
  category : String
  vault_id : String
  fields : List SecretField
  tags : List String
  urls : List SecretUrl
deriving Repr, DecidableEq

/-- The configuration fields of `Settings` read by the 1Password service. -/
structure Settings where
  onepassword_enabled : Bool
  op_vault_name : String
  op_secret_template : String
deriving Repr, DecidableEq

/-- One pass of placeholder substitution over a character list, with fuel for
structural termination: whenever the pattern occurs, it is replaced and
scanning resumes after it, exactly as `str.format` treats its single
`asset_id` placeholder. -/
def substAux (pat repl : List Char) : Nat → List Char → List Char
  | 0, l => l
  | _ + 1, [] => []
  | fuel + 1, c :: rest =>
    if pat.isPrefixOf (c :: rest) then
      repl ++ substAux pat repl fuel ((c :: rest).drop pat.length)
    else c :: substAux pat repl fuel rest

/-- Python's `template.format(asset_id=...)` for templates whose only
placeholder is `asset_id`: every occurrence of the placeholder is replaced by
the asset id. -/
def formatSecretTemplate (tpl : String) (assetId : Nat) : String :=
  String.mk (substAux "{asset_id}".data (toString assetId).data tpl.data.length tpl.data)

/-- The `self.mgmt_defaults` table together with the `.get(type, admin/changeme)`
fallback used for unknown controller types (username, password). -/
def mgmtDefaults (t : String) : String × String :=
  if t = "idrac" then ("root", "changeme")
  else if t = "ilo" then ("Administrator", "changeme")
  else if t = "ipmi" then ("admin", "changeme")
  else if t = "redfish" then ("admin", "changeme")
  else ("admin", "changeme")

/-- `_build_management_url`: an explicitly set, non-empty `ui_url` wins;
otherwise the URL is derived from address and port, with scheme `https` iff
the port is 443 and the port suffix omitted for ports 80 and 443. -/
def build_management_url (mc : ManagementController) : String :=
  if optTruthy mc.ui_url then mc.ui_url.getD ""
  else
    let protocol := if mc.port = 443 then "https" else "http"
    if mc.port = 80 ∨ mc.port = 443 then protocol ++ "://" ++ mc.address
    else protocol ++ "://" ++ mc.address ++ ":" ++ toString mc.port

/-- The layered override check of `_build_secret_data`: start from the default,
and use the provided value only when the key is present and the value is truthy
and non-blank after stripping, in which case the stripped value is taken. -/
def resolveCredField (creds : Option CredDict) (get : CredDict → Option String)
    (dflt : String) : String :=
  match creds with
  | none => dflt
  | some c =>
    match get c with
    | none => dflt
    | some provided =>
      if provided ≠ "" ∧ pyStrip provided ≠ "" then pyStrip provided else dflt

/-- `_build_secret_data`: assembles the 1Password item payload from the asset
identity fields, the optional management controller (with credential
resolution and URL derivation), and the OS credentials.  The `vault.id` slot
is left empty, to be filled by `create_or_update_asset_secret`. -/
def build_secret_data (s : Settings) (assetId : Nat) (hostname : String)
    (fqdn : Option String) (location : Option String) (assetType : String)
    (mgmt_controller : Option ManagementController)
    (mgmt_credentials : Option CredDict) (os_credentials : Option CredDict) :
    SecretData :=
  let secret_name := formatSecretTemplate s.op_secret_template assetId
  let baseFields : List SecretField :=
    [ ⟨"asset_name", "Asset Name", "STRING", hostname⟩,
      ⟨"asset_id", "Asset ID", "STRING", toString assetId⟩,
      ⟨"asset_fqdn", "Asset FQDN", "STRING", fqdn.getD ""⟩,
      ⟨"asset_location", "Asset Location", "STRING", location.getD ""⟩ ]
  let mgmtPart : List SecretField × List SecretUrl :=
    match mgmt_controller with
    | some mc =>
      let d := mgmtDefaults mc.type
      let mgmt_user := resolveCredField mgmt_credentials (fun c => c.username) d.1
      let mgmt_pass := resolveCredField mgmt_credentials (fun c => c.password) d.2
      let mgmt_url := build_management_url mc
      let urls : List SecretUrl :=
        if mgmt_url ≠ "" then [⟨"Management Interface", true, mgmt_url⟩] else []
      ( [ ⟨"mgmt_type", "Management Type", "STRING", mc.type⟩,
          ⟨"mgmt_address", "Management Address", "STRING", mc.address⟩,
          ⟨"mgmt_port", "Management Port", "STRING", toString mc.port⟩,
          ⟨"mgmt_ui_url", "Management UI URL", "STRING", mgmt_url⟩,
          ⟨"mgmt_username", "Management Username", "STRING", mgmt_user⟩,
          ⟨"mgmt_password", "Management Password", "CONCEALED", mgmt_pass⟩ ],
        urls )
    | none =>
      ( [ ⟨"mgmt_type", "Management Type", "STRING", ""⟩,
          ⟨"mgmt_address", "Management Address", "STRING", ""⟩,
          ⟨"mgmt_port", "Management Port", "STRING", ""⟩,
          ⟨"mgmt_ui_url", "Management UI URL", "STRING", ""⟩,
          ⟨"mgmt_username", "Management Username", "STRING", "admin"⟩,
          ⟨"mgmt_password", "Management Password", "CONCEALED", "changeme"⟩ ],
        [] )
  let os_user := resolveCredField os_credentials (fun c => c.username) "root"
  let os_pass := resolveCredField os_credentials (fun c => c.password) "changeme"
  let os_ssh_key := resolveCredField os_credentials (fun c => c.ssh_key) ""
  let osFields : List SecretField :=
    [ ⟨"os_username", "OS Username", "STRING", os_user⟩,
      ⟨"os_password", "OS Password", "CONCEALED", os_pass⟩,
      ⟨"os_ssh_key", "OS SSH Key", "STRING", os_ssh_key⟩ ]
  { title := secret_name
    category := "LOGIN"
    vault_id := ""
    fields := baseFields ++ mgmtPart.1 ++ osFields
    tags := ["computer-inventory", "asset", assetType]
    urls := mgmtPart.2 }

/-- Value of the field with the given id in a built payload. -/
def fieldValue (sd : SecretData) (fid : String) : Option String :=
  (sd.fields.find? (fun f => f.id == fid)).map (fun f => f.value)

/-- A stored asset row (`models.Asset`), restricted to the columns the upsert
and the secret builder read or write.  The many-to-many application
association is carried as the list of associated application ids, in database
row order. -/
structure StoredAsset where
  id : Nat
  hostname : String
  fqdn : Option String
  serial_number : Option String
  vendor : Option String
  model : Option String
  type : String
  status : String
  location : Option String
  notes : Option String
  primary_owner_id : Option Nat
  application_ids : List Nat
deriving Repr, DecidableEq

/-- The relational store: asset rows, the ids of existing application rows in
database order, and the id the next insert will receive. -/
structure Db where
  assets : List StoredAsset
  applications : List Nat
  nextId : Nat
deriving Repr, DecidableEq

/-- `CRUDAsset.get_by_fqdn`: first asset whose `fqdn` column equals the given
value. -/
def get_by_fqdn (db : Db) (f : String) : Option StoredAsset :=
  db.assets.find? (fun a => a.fqdn == some f)

/-- `CRUDAsset.get_by_serial_and_vendor`: first asset matching both the serial
number and the vendor. -/
def get_by_serial_and_vendor (db : Db) (s v : String) : Option StoredAsset :=
  db.assets.find? (fun a => a.serial_number == some s && a.vendor == some v)

/-- `CRUDAsset.get_by_hostname`: first asset with the given hostname. -/
def get_by_hostname (db : Db) (h : String) : Option StoredAsset :=
  db.assets.find? (fun a => a.hostname == h)

/-- An inbound upsert request body before validation: `some` marks a field
explicitly present in the JSON payload (hostname is required). -/
structure AssetPayload where
  hostname : String
  fqdn : Option (Option String) := none
  serial_number : Option (Option String) := none
  vendor : Option (Option String) := none
  model : Option (Option String) := none
  type : Option String := none
  status : Option String := none
  location : Option (Option String) := none
  notes : Option (Option String) := none
  primary_owner_id : Option (Option Nat) := none
  application_ids : Option (List Nat) := none
deriving Repr, DecidableEq

/-- The validated `schemas.AssetCreate` model: every field has a value, with
pydantic defaults filled in for fields absent from the payload. -/
structure AssetCreate where
  hostname : String
  fqdn : Option String := none
  serial_number : Option String := none
  vendor : Option String := none
  model : Option String := none
  type : String := "server"
  status : String := "active"
  location : Option String := none
  notes : Option String := none
  primary_owner_id : Option Nat := none
  application_ids : List Nat := []
deriving Repr, DecidableEq

/-- Pydantic construction of `AssetCreate` from a request payload: absent
fields take the schema defaults (`None` for the optional columns, `server`,
`active`, and the empty application-id list). -/
def parseAssetCreate (p : AssetPayload) : AssetCreate :=
  { hostname := p.hostname
    fqdn := p.fqdn.getD none
    serial_number := p.serial_number.getD none
    vendor := p.vendor.getD none
    model := p.model.getD none
    type := p.type.getD "server"
    status := p.status.getD "active"
    location := p.location.getD none
    notes := p.notes.getD none
    primary_owner_id := p.primary_owner_id.getD none
    application_ids := p.application_ids.getD [] }

/-- The `schemas.AssetUpdate` model: optional values plus pydantic's
`fields_set`, which records which fields were passed explicitly and drives
`model_dump(exclude_unset=True)`. -/
structure AssetUpdate where
  hostname : Option String := none
  fqdn : Option String := none
  serial_number : Option String := none
  vendor : Option String := none
  model : Option String := none
  type : Option String := none
  status : Option String := none
  location : Option String := none
  notes : Option String := none
  primary_owner_id : Option Nat := none
  application_ids : Option (List Nat) := none
  fields_set : List String := []
deriving Repr, DecidableEq

/-- `AssetUpdate(**obj_in.model_dump())` as performed by `CRUDAsset.upsert`:
`model_dump()` (without `exclude_unset`) materializes every field of the
create model, so every field of the resulting update model is explicitly
set. -/
def assetUpdateOfCreate (c : AssetCreate) : AssetUpdate :=
  { hostname := some c.hostname
    fqdn := c.fqdn
    serial_number := c.serial_number
    vendor := c.vendor
    model := c.model
    type := some c.type
    status := some c.status
    location := c.location
    notes := c.notes
    primary_owner_id := c.primary_owner_id
    application_ids := some c.application_ids
    fields_set := ["hostname", "fqdn", "serial_number", "vendor", "model",
                   "type", "status", "location", "notes", "primary_owner_id",
                   "application_ids"] }

/-- `db.query(Application).filter(Application.id.in_(ids)).all()`: the
application rows whose id is in the list, in database order. -/
def queryApplications (db : Db) (ids : List Nat) : List Nat :=
  db.applications.filter (fun i => i ∈ ids)

/-- `CRUDAsset.update`: `setattr` every field in
`model_dump(exclude_unset=True, exclude=application_ids)` onto the row, then
replace the application association wholesale iff `application_ids` is not
`None`.  The non-null columns (`hostname`, `type`, `status`) keep their old
value when the update carries `None` for them, mirroring the NOT NULL
constraint; every call site sets them to concrete values. -/
def crud_update (db : Db) (a : StoredAsset) (u : AssetUpdate) : StoredAsset :=
  let a := if "hostname" ∈ u.fields_set then
      { a with hostname := u.hostname.getD a.hostname } else a
  let a := if "fqdn" ∈ u.fields_set then { a with fqdn := u.fqdn } else a
  let a := if "serial_number" ∈ u.fields_set then
      { a with serial_number := u.serial_number } else a
  let a := if "vendor" ∈ u.fields_set then { a with vendor := u.vendor } else a
  let a := if "model" ∈ u.fields_set then { a with model := u.model } else a
  let a := if "type" ∈ u.fields_set then
      { a with type := u.type.getD a.type } else a
  let a := if "status" ∈ u.fields_set then
      { a with status := u.status.getD a.status } else a
  let a := if "location" ∈ u.fields_set then { a with location := u.location } else a
  let a := if "notes" ∈ u.fields_set then { a with notes := u.notes } else a
  let a := if "primary_owner_id" ∈ u.fields_set then
      { a with primary_owner_id := u.primary_owner_id } else a
  match u.application_ids with
  | some ids => { a with application_ids := queryApplications db ids }
  | none => a

/-- `CRUDAsset.create`: insert a fresh row from the create model; application
associations are attached only when the id list is non-empty (the `if
application_ids:` truthiness check). -/
def crud_create (db : Db) (c : AssetCreate) : Db × StoredAsset :=
  let apps := if c.application_ids ≠ [] then queryApplications db c.application_ids else []
  let a : StoredAsset :=
    { id := db.nextId
      hostname := c.hostname
      fqdn := c.fqdn
      serial_number := c.serial_number
      vendor := c.vendor
      model := c.model
      type := c.type
      status := c.status
      location := c.location
      notes := c.notes
      primary_owner_id := c.primary_owner_id
      application_ids := apps }
  ({ db with assets := db.assets ++ [a], nextId := db.nextId + 1 }, a)

/-- Commit of an updated row: replace the stored row with the same id. -/
def replaceById (assets : List StoredAsset) (a : StoredAsset) : List StoredAsset :=
  assets.map (fun b => if b.id == a.id then a else b)

/-- Result of `CRUDAsset.upsert`: the store after the commit, the returned
asset, and the `created` flag. -/
structure UpsertResult where
  db : Db
  asset : StoredAsset
  created : Bool
deriving Repr, DecidableEq

/-- The natural-key lookups of `CRUDAsset.upsert`, in priority order. -/
inductive Lookup where
  | byFqdn
  | bySerialVendor
  | byHostname
deriving Repr, DecidableEq

/-- Priority-1 match of `CRUDAsset.upsert`: the FQDN lookup, attempted only
when the inbound FQDN is truthy. -/
def upsertMatch1 (db : Db) (c : AssetCreate) : Option StoredAsset :=
  if optTruthy c.fqdn then get_by_fqdn db (c.fqdn.getD "") else none

/-- Priority-2 match: the serial+vendor lookup, attempted only when no
priority-1 match was found and both serial number and vendor are truthy. -/
def upsertMatch2 (db : Db) (c : AssetCreate) : Option StoredAsset :=
  match upsertMatch1 db c with
  | some a => some a
  | none =>
    if optTruthy c.serial_number && optTruthy c.vendor then
      get_by_serial_and_vendor db (c.serial_number.getD "") (c.vendor.getD "")
    else none

/-- Priority-3 match: the hostname fallback, attempted only when the first two
priorities found nothing. -/
def upsertMatch3 (db : Db) (c : AssetCreate) : Option StoredAsset :=
  match upsertMatch2 db c with
  | some a => some a
  | none => get_by_hostname db c.hostname

/-- `CRUDAsset.upsert`: find an existing asset by FQDN, then serial+vendor,
then hostname; update the match via `AssetUpdate(**obj_in.model_dump())` and
return `created=false`, or create a fresh row and return `created=true`. -/
def upsert (db : Db) (c : AssetCreate) : UpsertResult :=
  match upsertMatch3 db c with
  | some existing =>
    let updated := crud_update db existing (assetUpdateOfCreate c)
    { db := { db with assets := replaceById db.assets updated }
      asset := updated
      created := false }
  | none =>
    let (db1, a) := crud_create db c
    { db := db1, asset := a, created := true }

/-- The sequence of natural-key lookups the upsert actually issues, mirroring
its control flow: each lookup runs only if its guard holds and every
higher-priority lookup missed. -/
def upsertLookups (db : Db) (c : AssetCreate) : List Lookup :=
  let l1 : List Lookup := if optTruthy c.fqdn then [Lookup.byFqdn] else []
  let l2 : List Lookup :=
    if (upsertMatch1 db c).isNone && (optTruthy c.serial_number && optTruthy c.vendor) then
      [Lookup.bySerialVendor]
    else []
  let l3 : List Lookup := if (upsertMatch2 db c).isNone then [Lookup.byHostname] else []
  l1 ++ l2 ++ l3

/-- Python exceptions distinguished by the upsert endpoint's vault handlers:
`OnePasswordError` and every other `Exception`. -/
inductive PyExc where
  | opError (msg : String)
  | other (msg : String)
deriving Repr, DecidableEq

/-- Outcome of the `POST /assets/upsert` handler: the committed store and
either the response body (asset, created flag) or an HTTP error status. -/
structure EndpointResult where
  db : Db
  response : Except Nat (StoredAsset × Bool)

/-- The tail of `upsert_asset` (routers/assets.py, from the CRUD upsert to the
response): the relational upsert commits first; when the integration is
enabled the vault sync call runs inside a handler that absorbs
`OnePasswordError` and every other exception and continues; only an exception
escaping that handler would reach the outer handler and yield HTTP 500. -/
def upsert_asset_endpoint (db : Db) (c : AssetCreate) (enabled : Bool)
    (vaultCall : Except PyExc Nat) : EndpointResult :=
  let r := upsert db c
  let vaultOutcome : Except PyExc Unit :=
    if enabled then
      match vaultCall with
      | .ok _ => .ok ()
      | .error (.opError _) => .ok ()
      | .error (.other _) => .ok ()
    else .ok ()
  match vaultOutcome with
  | .ok _ => { db := r.db, response := .ok (r.asset, r.created) }
  | .error _ => { db := r.db, response := .error 500 }

mutual
/-- A Python value as handed to `_make_json_safe`: nested dicts and lists over
atoms, where UUID and datetime objects are kept as distinguished constructors
(carrying their string serialization) and floats carry their repr (floats are
the stock atoms owning a `hex` attribute). -/
inductive PyVal where
  | dict : PyDict → PyVal
  | arr : PyArr → PyVal
  | uuid : String → PyVal
  | datetime : String → PyVal
  | pstr : String → PyVal
  | pint : Int → PyVal
  | pfloat : String → PyVal
  | pbool : Bool → PyVal
  | pnone : PyVal
/-- Entries of a Python dict value. -/
inductive PyDict where
  | nil : PyDict
  | cons : String → PyVal → PyDict → PyDict
/-- Elements of a Python list value. -/
inductive PyArr where
  | nil : PyArr
  | cons : PyVal → PyArr → PyArr
end

/-- Python's `hasattr(obj, 'hex')` on the modelled atoms: true for UUIDs and
floats, false for datetimes, strings, ints, bools and None. -/
def hasHexAttr : PyVal → Bool
  | .uuid _ => true
  | .pfloat _ => true
  | _ => false

/-- Python's `str(obj)` for the values `_make_json_safe` serializes. -/
def pyToStr : PyVal → String
  | .uuid s => s
  | .datetime s => s
  | .pstr s => s
  | .pfloat r => r
  | _ => ""

mutual
/-- `_make_json_safe` (routers/assets.py): recurse through dicts and lists,
turn UUIDs — and any other object with a `hex` attribute — into strings, and
return every other value unchanged. -/
def make_json_safe : PyVal → PyVal
  | .dict kvs => .dict (mjsDict kvs)
  | .arr xs => .arr (mjsArr xs)
  | .uuid s => .pstr s
  | v => if hasHexAttr v then .pstr (pyToStr v) else v
/-- `_make_json_safe` over dict entries. -/
def mjsDict : PyDict → PyDict
  | .nil => .nil
  | .cons k v rest => .cons k (make_json_safe v) (mjsDict rest)
/-- `_make_json_safe` over list elements. -/
def mjsArr : PyArr → PyArr
  | .nil => .nil
  | .cons v rest => .cons (make_json_safe v) (mjsArr rest)
end

mutual
/-- Whether a value contains a raw UUID object at any nesting depth. -/
def containsUuidV : PyVal → Bool
  | .dict kvs => containsUuidD kvs
  | .arr xs => containsUuidA xs
  | .uuid _ => true
  | _ => false
/-- Raw-UUID check over dict entries. -/
def containsUuidD : PyDict → Bool
  | .nil => false
  | .cons _ v rest => containsUuidV v || containsUuidD rest
/-- Raw-UUID check over list elements. -/
def containsUuidA : PyArr → Bool
  | .nil => false
  | .cons v rest => containsUuidV v || containsUuidA rest
end

mutual
/-- Whether a value contains a raw datetime object at any nesting depth. -/
def containsDatetimeV : PyVal → Bool
  | .dict kvs => containsDatetimeD kvs
  | .arr xs => containsDatetimeA xs
  | .datetime _ => true
  | _ => false
/-- Raw-datetime check over dict entries. -/
def containsDatetimeD : PyDict → Bool
  | .nil => false
  | .cons _ v rest => containsDatetimeV v || containsDatetimeD rest
/-- Raw-datetime check over list elements. -/
def containsDatetimeA : PyArr → Bool
  | .nil => false
  | .cons v rest => containsDatetimeV v || containsDatetimeA rest
end

/-- An item stored in the external vault; items are identified by a numeric
id issued by the vault, and the create/update result reports that id. -/
structure VaultItem where
  id : Nat
  title : String
  data : SecretData
deriving Repr, DecidableEq

/-- The external vault service state: the vaults (name, id) as listed by
`GET /vaults`, the stored items tagged with their vault id, and the source of
fresh item ids. -/
structure VaultState where
  vaults : List (String × String)
  items : List (String × VaultItem)
  counter : Nat
deriving Repr, DecidableEq

/-- Network operations the sync service can issue against the vault. -/
inductive VaultOp where
  | getVaults
  | listItems (vaultId title : String)
  | putItem (vaultId : String) (itemId : Nat)
  | postItem (vaultId : String)
deriving Repr, DecidableEq

/-- `OnePasswordError` raised by the service. -/
inductive OnePasswordError where
  | vaultNotFound (name : String)
deriving Repr, DecidableEq

/-- `get_vault_id`: look the configured vault name up in `GET /vaults`;
raise `OnePasswordError` when absent. -/
def get_vault_id (s : Settings) (st : VaultState) : Except OnePasswordError String :=
  match st.vaults.find? (fun p => p.1 == s.op_vault_name) with
  | some p => .ok p.2
  | none => .error (.vaultNotFound s.op_vault_name)

/-- The items of a vault carrying a given title, in storage order (what the
`filter=title eq ...` query returns). -/
def itemsTitled (st : VaultState) (vaultId title : String) : List VaultItem :=
  (st.items.filter (fun p => p.1 == vaultId && p.2.title == title)).map (fun p => p.2)

/-- `_find_secret_by_title`: `items[0] if items else None` over the
title-filtered listing. -/
def find_secret_by_title (st : VaultState) (vaultId title : String) : Option VaultItem :=
  (itemsTitled st vaultId title).head?

/-- Result of one `create_or_update_asset_secret` call: the vault state after
the call, the network operations issued, and the returned secret id (or the
raised error). -/
structure SyncResult where
  state : VaultState
  ops : List VaultOp
  result : Except OnePasswordError (Option Nat)
deriving Repr

/-- `create_or_update_asset_secret`: an immediate empty no-op when the
integration is disabled; otherwise resolve the vault id, build the payload,
search by the templated title, and either replace the found item (returning
its id) or create a fresh one (returning the new id).  The vault's successful
(2xx) responses are modelled; the id of a created item is issued from the
vault's counter. -/
def create_or_update_asset_secret (s : Settings) (st : VaultState)
    (asset : StoredAsset) (mc : Option ManagementController)
    (mcreds ocreds : Option CredDict) : SyncResult :=
  if ¬ s.onepassword_enabled then { state := st, ops := [], result := .ok none }
  else
    match get_vault_id s st with
    | .error e => { state := st, ops := [VaultOp.getVaults], result := .error e }
    | .ok vid =>
      let sd0 := build_secret_data s asset.id asset.hostname asset.fqdn
        asset.location asset.type mc mcreds ocreds
      let sd := { sd0 with vault_id := vid }
      let secret_name := formatSecretTemplate s.op_secret_template asset.id
      match find_secret_by_title st vid secret_name with
      | some existing =>
        let newItem : VaultItem := { id := existing.id, title := sd.title, data := sd }
        let st1 := { st with items := st.items.map (fun p =>
          if p.1 == vid && p.2.id == existing.id then (p.1, newItem) else p) }
        { state := st1
          ops := [VaultOp.getVaults, VaultOp.listItems vid secret_name,
                  VaultOp.putItem vid existing.id]
          result := .ok (some existing.id) }
      | none =>
        let newItem : VaultItem := { id := st.counter, title := sd.title, data := sd }
        { state := { st with items := st.items ++ [(vid, newItem)],
                             counter := st.counter + 1 }
          ops := [VaultOp.getVaults, VaultOp.listItems vid secret_name,
                  VaultOp.postItem vid]
          result := .ok (some st.counter) }

/-- The vault item a sync call writes: the built payload with the vault id
filled in, stored under the given item id and titled by the payload title. -/
def syncItem (s : Settings) (asset : StoredAsset) (mc : Option ManagementController)
    (mcreds ocreds : Option CredDict) (vid : String) (itemId : Nat) : VaultItem :=
  { id := itemId
    title := (build_secret_data s asset.id asset.hostname asset.fqdn
      asset.location asset.type mc mcreds ocreds).title
    data := { build_secret_data s asset.id asset.hostname asset.fqdn
      asset.location asset.type mc mcreds ocreds with vault_id := vid } }

/-- Number of items with a given title in a given vault. -/
def countTitle (st : VaultState) (vaultId title : String) : Nat :=
  st.items.countP (fun p => p.1 == vaultId && p.2.title == title)

/-- Number of items with a given id in a given vault. -/
def countId (st : VaultState) (vaultId : String) (i : Nat) : Nat :=
  st.items.countP (fun p => p.1 == vaultId && p.2.id == i)

/-- Well-formedness of a vault state, guaranteed by the vault service: item
ids are unique within a vault and all issued ids are below the counter. -/
def VaultState.wf (st : VaultState) : Prop :=
  (∀ vid i, countId st vid i ≤ 1) ∧ ∀ p ∈ st.items, p.2.id < st.counter

/-- Iterated sync of the same asset: the vault state after a sequence of
`create_or_update_asset_secret` calls. -/
def syncIter (s : Settings) (asset : StoredAsset) (mc : Option ManagementController)
    (mcreds ocreds : Option CredDict) : Nat → VaultState → VaultState
  | 0, st => st
  | n + 1, st =>
    syncIter s asset mc mcreds ocreds n
      (create_or_update_asset_secret s st asset mc mcreds ocreds).state

/-- The spec's credential-resolution rule, stated from its words: use the
override value (trimmed) only if it is a non-null string that is non-empty
after trimming; otherwise fall back to the default. -/
def specResolve (override : Option String) (dflt : String) : String :=
  match override with
  | some v => if pyStrip v ≠ "" then pyStrip v else dflt
  | none => dflt

/-- The spec's default management username per controller type: idrac→root,
ilo→Administrator, ipmi/redfish→admin, unknown→admin. -/
def specMgmtUserDefault (t : String) : String :=
  if t = "idrac" then "root"
  else if t = "ilo" then "Administrator"
  else "admin"

/-- Asset row fixture for the matching-priority scenarios: FQDN x.com, serial
S1/vendor V1, hostname h1. -/
def assetA : StoredAsset :=
  { id := 1, hostname := "h1", fqdn := some "x.com", serial_number := some "S1",
    vendor := some "V1", model := some "M1", type := "server", status := "active",
    location := some "DC1", notes := some "keep", primary_owner_id := some 9,
    application_ids := [7] }

/-- A second asset row, carrying the serial/vendor and hostname the inbound
payloads of the scenarios mention. -/
def assetB : StoredAsset :=
  { id := 2, hostname := "h2", fqdn := some "y.com", serial_number := some "S2",
    vendor := some "V2", model := none, type := "server", status := "active",
    location := none, notes := none, primary_owner_id := none,
    application_ids := [] }

/-- Store fixture holding both assets and one application row (id 7). -/
def dbAB : Db := { assets := [assetA, assetB], applications := [7], nextId := 3 }

/-- Inbound payload whose FQDN matches asset A while its serial/vendor and
hostname match asset B. -/
def payloadFqdnA : AssetPayload :=
  { hostname := "h2", fqdn := some (some "x.com"),
    serial_number := some (some "S2"), vendor := some (some "V2") }

/-- Inbound payload with a fresh FQDN that matches nothing, whose hostname
matches asset A. -/
def payloadNewFqdn : AssetPayload :=
  { hostname := "h1", fqdn := some (some "z.com") }

/-- Inbound payload that matches asset A by FQDN and explicitly omits
location, notes, owner and the application-id list. -/
def payloadOmitting : AssetPayload :=
  { hostname := "h1", fqdn := some (some "x.com") }

/-- Enabled 1Password configuration fixture with the default vault name and
secret title template. -/
def settingsOn : Settings :=
  { onepassword_enabled := true, op_vault_name := "Computer-Inventory",
    op_secret_template := "asset-{asset_id}" }

/-- Vault fixture: one vault matching the configured name, no items yet. -/
def vaultEmpty : VaultState :=
  { vaults := [("Computer-Inventory", "v1")], items := [], counter := 0 }

/-! ### Helper lemmas -/

theorem pyStrip_empty : pyStrip "" = "" := rfl

theorem mgmtDefaults_fst (t : String) : (mgmtDefaults t).1 = specMgmtUserDefault t := by
  unfold mgmtDefaults specMgmtUserDefault
  split_ifs <;> rfl

theorem mgmtDefaults_snd (t : String) : (mgmtDefaults t).2 = "changeme" := by
  unfold mgmtDefaults
  split_ifs <;> rfl

theorem resolveCredField_eq_specResolve (creds : Option CredDict)
    (get : CredDict → Option String) (dflt : String) :
    resolveCredField creds get dflt = specResolve (creds.bind get) dflt := by
  cases creds with
  | none => rfl
  | some c =>
    cases hg : get c with
    | none => simp [resolveCredField, specResolve, hg]
    | some p =>
      simp only [resolveCredField, specResolve, hg, Option.bind_some]
      by_cases hp : pyStrip p = ""
      · simp [hg, hp]
      · have hpne : p ≠ "" := by
          intro h
          rw [h, pyStrip_empty] at hp
          exact hp rfl
        simp [hg, hp, hpne]

theorem fieldValue_mgmt_username (s : Settings) (assetId : Nat) (hostname : String)
    (fqdn location : Option String) (assetType : String) (mc : ManagementController)
    (mcreds ocreds : Option CredDict) :
    fieldValue (build_secret_data s assetId hostname fqdn location assetType
        (some mc) mcreds ocreds) "mgmt_username"
      = some (resolveCredField mcreds (fun c => c.username) (mgmtDefaults mc.type).1) := rfl

theorem fieldValue_mgmt_password (s : Settings) (assetId : Nat) (hostname : String)
    (fqdn location : Option String) (assetType : String) (mc : ManagementController)
    (mcreds ocreds : Option CredDict) :
    fieldValue (build_secret_data s assetId hostname fqdn location assetType
        (some mc) mcreds ocreds) "mgmt_password"
      = some (resolveCredField mcreds (fun c => c.password) (mgmtDefaults mc.type).2) := rfl

theorem fieldValue_os_username (s : Settings) (assetId : Nat) (hostname : String)
    (fqdn location : Option String) (assetType : String)
    (mcOpt : Option ManagementController) (mcreds ocreds : Option CredDict) :
    fieldValue (build_secret_data s assetId hostname fqdn location assetType
        mcOpt mcreds ocreds) "os_username"
      = some (resolveCredField ocreds (fun c => c.username) "root") := by
  cases mcOpt <;> rfl

theorem fieldValue_os_password (s : Settings) (assetId : Nat) (hostname : String)
    (fqdn location : Option String) (assetType : String)
    (mcOpt : Option ManagementController) (mcreds ocreds : Option CredDict) :
    fieldValue (build_secret_data s assetId hostname fqdn location assetType
        mcOpt mcreds ocreds) "os_password"
      = some (resolveCredField ocreds (fun c => c.password) "changeme") := by
  cases mcOpt <;> rfl

theorem fieldValue_os_ssh_key (s : Settings) (assetId : Nat) (hostname : String)
    (fqdn location : Option String) (assetType : String)
    (mcOpt : Option ManagementController) (mcreds ocreds : Option CredDict) :
    fieldValue (build_secret_data s assetId hostname fqdn location assetType
        mcOpt mcreds ocreds) "os_ssh_key"
      = some (resolveCredField ocreds (fun c => c.ssh_key) "") := by
  cases mcOpt <;> rfl

/-! ### Claim C1 -/

/-- C1: every credential field of the payload built by `_build_secret_data` —
management username and password when a controller is supplied; OS username,
password and SSH key for any controller argument — equals the override value
stripped of surrounding whitespace when the override supplies a non-null
string that is non-empty after trimming, and otherwise equals the documented
default for that field and controller type (idrac root/changeme, ilo
Administrator/changeme, ipmi and redfish admin/changeme, unknown type
admin/changeme; OS root/changeme/empty SSH key).  A `None` override, an empty
dict, or a blank string never replaces the default. -/
theorem c1_credential_fields_override_or_default
    (s : Settings) (assetId : Nat) (hostname : String)
    (fqdn location : Option String) (assetType : String)
    (mc : ManagementController) (mcOpt : Option ManagementController)
    (mcreds ocreds : Option CredDict) :
    fieldValue (build_secret_data s assetId hostname fqdn location assetType
        (some mc) mcreds ocreds) "mgmt_username"
      = some (specResolve (mcreds.bind (fun c => c.username)) (specMgmtUserDefault mc.type)) ∧
    fieldValue (build_secret_data s assetId hostname fqdn location assetType
        (some mc) mcreds ocreds) "mgmt_password"
      = some (specResolve (mcreds.bind (fun c => c.password)) "changeme") ∧
    fieldValue (build_secret_data s assetId hostname fqdn location assetType
        mcOpt mcreds ocreds) "os_username"
      = some (specResolve (ocreds.bind (fun c => c.username)) "root") ∧
    fieldValue (build_secret_data s assetId hostname fqdn location assetType
        mcOpt mcreds ocreds) "os_password"
      = some (specResolve (ocreds.bind (fun c => c.password)) "changeme") ∧
    fieldValue (build_secret_data s assetId hostname fqdn location assetType
        mcOpt mcreds ocreds) "os_ssh_key"
      = some (specResolve (ocreds.bind (fun c => c.ssh_key)) "") := by
  refine ⟨?_, ?_, ?_, ?_, ?_⟩
  · rw [fieldValue_mgmt_username, resolveCredField_eq_specResolve, mgmtDefaults_fst]
  · rw [fieldValue_mgmt_password, resolveCredField_eq_specResolve, mgmtDefaults_snd]
  · rw [fieldValue_os_username, resolveCredField_eq_specResolve]
  · rw [fieldValue_os_password, resolveCredField_eq_specResolve]
  · rw [fieldValue_os_ssh_key, resolveCredField_eq_specResolve]

/-! ### Claim C8 -/

/-- C8 counterexample: the claim as stated is false for port 8443 — with
`ui_url` unset, the code derives `http://10.0.0.1:8443`, not
`https://10.0.0.1:8443`, because the scheme is https only when the port is
exactly 443. -/
theorem c8_counterexample_port_8443 :
    build_management_url ⟨"idrac", "10.0.0.1", 8443, none⟩ = "http://10.0.0.1:8443" ∧
    build_management_url ⟨"idrac", "10.0.0.1", 8443, none⟩ ≠ "https://10.0.0.1:8443" := by
  constructor <;> decide

/-- C8 (amended): with `ui_url` unset, port 443 resolves to
`https://{address}` with no port suffix, port 8443 to `http://{address}:8443`
(the scheme is https only for port 443), and port 80 to `http://{address}`;
a non-empty explicit `ui_url` is returned verbatim. -/
theorem c8_management_url_resolution (t addr u : String) (p : Nat) (hu : u ≠ "") :
    build_management_url ⟨t, addr, 443, none⟩ = "https://" ++ addr ∧
    build_management_url ⟨t, addr, 8443, none⟩ = "http://" ++ addr ++ ":8443" ∧
    build_management_url ⟨t, addr, 80, none⟩ = "http://" ++ addr ∧
    build_management_url ⟨t, addr, p, some u⟩ = u := by
  refine ⟨rfl, ?_, rfl, ?_⟩
  · simp only [build_management_url, optTruthy]
    norm_num
    have ht : toString (8443 : Nat) = "8443" := rfl
    have h2 : ("http" ++ "://" : String) = "http://" := rfl
    have h3 : (":" ++ "8443" : String) = ":8443" := rfl
    rw [ht, h2, String.append_assoc ("http://" ++ addr) ":" "8443", h3]
  · simp [build_management_url, optTruthy, hu]

/-- C8 witness: the amended resolution rule evaluated at a concrete
controller address, explicit UI URL and port. -/
theorem c8_management_url_resolution_witness :
    "https://mgmt.local" ≠ "" ∧
    (build_management_url ⟨"idrac", "10.0.0.1", 443, none⟩ = "https://" ++ "10.0.0.1" ∧
     build_management_url ⟨"idrac", "10.0.0.1", 8443, none⟩ = "http://" ++ "10.0.0.1" ++ ":8443" ∧
     build_management_url ⟨"idrac", "10.0.0.1", 80, none⟩ = "http://" ++ "10.0.0.1" ∧
     build_management_url ⟨"idrac", "10.0.0.1", 9443, some "https://mgmt.local"⟩ = "https://mgmt.local") :=
  ⟨by decide, c8_management_url_resolution "idrac" "10.0.0.1" "https://mgmt.local" 9443 (by decide)⟩

/-! ### Claims C3 and C10 -/

theorem crud_update_assetUpdateOfCreate (db : Db) (a : StoredAsset) (c : AssetCreate) :
    crud_update db a (assetUpdateOfCreate c) =
      { id := a.id, hostname := c.hostname, fqdn := c.fqdn,
        serial_number := c.serial_number, vendor := c.vendor, model := c.model,
        type := c.type, status := c.status, location := c.location,
        notes := c.notes, primary_owner_id := c.primary_owner_id,
        application_ids := queryApplications db c.application_ids } := rfl

/-- C3: when the inbound FQDN is present (non-empty) and the FQDN lookup
finds an asset A, the upsert updates A and returns `created=false`,
whatever the payload's serial number, vendor or hostname match — and the
FQDN lookup is the only natural-key lookup consulted. -/
theorem c3_upsert_fqdn_priority (db : Db) (c : AssetCreate) (f : String)
    (A : StoredAsset) (hf : c.fqdn = some f) (hne : f ≠ "")
    (hfind : get_by_fqdn db f = some A) :
    upsert db c =
      { db := { db with assets := replaceById db.assets (crud_update db A (assetUpdateOfCreate c)) },
        asset := crud_update db A (assetUpdateOfCreate c),
        created := false } ∧
    upsertLookups db c = [Lookup.byFqdn] := by
  have h1 : upsertMatch1 db c = some A := by
    simp [upsertMatch1, optTruthy, hf, hne, hfind]
  have h2 : upsertMatch2 db c = some A := by simp [upsertMatch2, h1]
  have h3 : upsertMatch3 db c = some A := by simp [upsertMatch3, h2]
  constructor
  · simp [upsert, h3]
  · simp [upsertLookups, optTruthy, hf, hne, h1, h2]

/-- C3 witness: a store holding asset A (fqdn x.com, serial S1, vendor V1,
hostname h1) and asset B (serial S2, vendor V2, hostname h2); the inbound
payload carries fqdn x.com with B's serial, vendor and hostname, and the
upsert still selects and updates A without consulting the other lookups. -/
theorem c3_upsert_fqdn_priority_witness :
    (parseAssetCreate payloadFqdnA).fqdn = some "x.com" ∧
    "x.com" ≠ "" ∧
    get_by_fqdn dbAB "x.com" = some assetA ∧
    (upsert dbAB (parseAssetCreate payloadFqdnA) =
      { db := { dbAB with assets := replaceById dbAB.assets (crud_update dbAB assetA (assetUpdateOfCreate (parseAssetCreate payloadFqdnA))) },
        asset := crud_update dbAB assetA (assetUpdateOfCreate (parseAssetCreate payloadFqdnA)),
        created := false } ∧
     upsertLookups dbAB (parseAssetCreate payloadFqdnA) = [Lookup.byFqdn]) :=
  ⟨by decide, by decide, by decide,
   c3_upsert_fqdn_priority dbAB (parseAssetCreate payloadFqdnA) "x.com" assetA
     (by decide) (by decide) (by decide)⟩

/-- C10: an inbound payload whose FQDN is present but matches nothing does
not immediately create a row: the upsert falls through to the serial+vendor
lookup and then to the hostname lookup, so a hostname match B is updated
(with its stored FQDN replaced by the inbound one) and `created=false`; and
a new row is created only when every attempted lookup found nothing. -/
theorem c10_upsert_fqdn_miss_falls_through :
    (∀ db c B f, c.fqdn = some f → f ≠ "" →
      get_by_fqdn db f = none →
      ((optTruthy c.serial_number && optTruthy c.vendor) = true →
        get_by_serial_and_vendor db (c.serial_number.getD "") (c.vendor.getD "") = none) →
      get_by_hostname db c.hostname = some B →
      (upsert db c).asset = crud_update db B (assetUpdateOfCreate c) ∧
      (upsert db c).created = false ∧
      (upsert db c).asset.fqdn = c.fqdn) ∧
    (∀ db c, (upsert db c).created = true →
      (optTruthy c.fqdn = true → get_by_fqdn db (c.fqdn.getD "") = none) ∧
      ((optTruthy c.serial_number && optTruthy c.vendor) = true →
        get_by_serial_and_vendor db (c.serial_number.getD "") (c.vendor.getD "") = none) ∧
      get_by_hostname db c.hostname = none) := by
  constructor
  · intro db c B f hf hne hmiss hsv hhost
    have h1 : upsertMatch1 db c = none := by
      simp [upsertMatch1, optTruthy, hf, hne, hmiss]
    have h2 : upsertMatch2 db c = none := by
      by_cases hg : (optTruthy c.serial_number && optTruthy c.vendor) = true
      · simp [upsertMatch2, h1, hg, hsv hg]
      · rw [Bool.not_eq_true] at hg
        simp [upsertMatch2, h1, hg]
    have h3 : upsertMatch3 db c = some B := by simp [upsertMatch3, h2, hhost]
    refine ⟨by simp [upsert, h3], by simp [upsert, h3], ?_⟩
    simp [upsert, h3, crud_update_assetUpdateOfCreate]
  · intro db c hcreated
    have h3 : upsertMatch3 db c = none := by
      cases h : upsertMatch3 db c with
      | none => rfl
      | some a => simp [upsert, h] at hcreated
    have hhost : get_by_hostname db c.hostname = none := by
      cases h2 : upsertMatch2 db c with
      | none => simpa [upsertMatch3, h2] using h3
      | some a => simp [upsertMatch3, h2] at h3
    have h2 : upsertMatch2 db c = none := by
      cases h2 : upsertMatch2 db c with
      | none => rfl
      | some a => simp [upsertMatch3, h2] at h3
    have h1 : upsertMatch1 db c = none := by
      cases h1 : upsertMatch1 db c with
      | none => rfl
      | some a => simp [upsertMatch2, h1] at h2
    refine ⟨?_, ?_, hhost⟩
    · intro htr
      by_contra hne
      simp only [upsertMatch1, htr, if_true] at h1
      exact hne h1
    · intro hg
      simp only [upsertMatch2, h1, hg, if_true] at h2
      exact h2

/-- C10 witness: a payload with fresh FQDN z.com and hostname h1 matching
asset A updates A in place, replacing the stored FQDN, and the creation flag
characterization holds on an empty store. -/
theorem c10_upsert_fqdn_miss_falls_through_witness :
    ((parseAssetCreate payloadNewFqdn).fqdn = some "z.com" ∧
     "z.com" ≠ "" ∧
     get_by_fqdn dbAB "z.com" = none ∧
     get_by_hostname dbAB "h1" = some assetA) ∧
    ((upsert dbAB (parseAssetCreate payloadNewFqdn)).asset =
        crud_update dbAB assetA (assetUpdateOfCreate (parseAssetCreate payloadNewFqdn)) ∧
     (upsert dbAB (parseAssetCreate payloadNewFqdn)).created = false ∧
     (upsert dbAB (parseAssetCreate payloadNewFqdn)).asset.fqdn =
        (parseAssetCreate payloadNewFqdn).fqdn) :=
  ⟨⟨by decide, by decide, by decide, by decide⟩,
   c10_upsert_fqdn_miss_falls_through.1 dbAB (parseAssetCreate payloadNewFqdn) assetA
     "z.com" (by decide) (by decide) (by decide) (by decide) (by decide)⟩

/-! ### Claims C4 and C5 -/

/-- C4: the upsert update path does not behave as a partial update.  The
payload `payloadOmitting` carries only hostname and fqdn; it matches asset A
(created `false`), yet A's stored location (`DC1`), notes, serial number,
vendor, model and owner are all overwritten with the create-schema defaults
(`None`), because `AssetUpdate(**obj_in.model_dump())` marks every field as
explicitly set before `update` applies `exclude_unset`. -/
theorem c4_omitted_fields_overwritten :
    payloadOmitting.location = none ∧
    payloadOmitting.serial_number = none ∧
    payloadOmitting.notes = none ∧
    assetA.location = some "DC1" ∧
    assetA.serial_number = some "S1" ∧
    assetA.notes = some "keep" ∧
    (upsert dbAB (parseAssetCreate payloadOmitting)).created = false ∧
    (upsert dbAB (parseAssetCreate payloadOmitting)).asset.id = assetA.id ∧
    (upsert dbAB (parseAssetCreate payloadOmitting)).asset.location = none ∧
    (upsert dbAB (parseAssetCreate payloadOmitting)).asset.serial_number = none ∧
    (upsert dbAB (parseAssetCreate payloadOmitting)).asset.notes = none := by
  decide

/-- C5: in the upsert update path, omission of the application-id field does
not leave associations untouched: the omitted field defaults to the empty
list, which is not `None`, so asset A's association with application 7 is
wiped.  Absent and empty payloads are indistinguishable through upsert. -/
theorem c5_omitted_application_ids_wipe_associations :
    payloadOmitting.application_ids = none ∧
    assetA.application_ids = [7] ∧
    (upsert dbAB (parseAssetCreate payloadOmitting)).created = false ∧
    (upsert dbAB (parseAssetCreate payloadOmitting)).asset.id = assetA.id ∧
    (upsert dbAB (parseAssetCreate payloadOmitting)).asset.application_ids = [] := by
  decide

/-! ### Claim C2 -/

/-- C2: whatever the vault sync call does — succeeds, raises
`OnePasswordError`, or raises any other exception — and whether or not the
integration is enabled, the upsert endpoint commits the relational upsert and
returns the successful response carrying the asset and the created flag; no
vault outcome ever surfaces as an error or changes the committed store. -/
theorem c2_vault_failure_never_aborts_upsert (db : Db) (c : AssetCreate)
    (enabled : Bool) (vaultCall : Except PyExc Nat) :
    (upsert_asset_endpoint db c enabled vaultCall).db = (upsert db c).db ∧
    (upsert_asset_endpoint db c enabled vaultCall).response =
      Except.ok ((upsert db c).asset, (upsert db c).created) := by
  cases vaultCall with
  | ok v => cases enabled <;> exact ⟨rfl, rfl⟩
  | error e => cases e <;> cases enabled <;> exact ⟨rfl, rfl⟩

/-! ### Claim C9 -/

mutual
def mjsNoUuidV : (v : PyVal) → containsUuidV (make_json_safe v) = false
  | .dict kvs => by
    rw [make_json_safe, containsUuidV]
    exact mjsNoUuidD kvs
  | .arr xs => by
    rw [make_json_safe, containsUuidV]
    exact mjsNoUuidA xs
  | .uuid s => rfl
  | .datetime s => rfl
  | .pstr s => rfl
  | .pint n => rfl
  | .pfloat r => rfl
  | .pbool b => rfl
  | .pnone => rfl
def mjsNoUuidD : (kvs : PyDict) → containsUuidD (mjsDict kvs) = false
  | .nil => rfl
  | .cons k v rest => by
    rw [mjsDict, containsUuidD, mjsNoUuidV v, mjsNoUuidD rest]
    rfl
def mjsNoUuidA : (xs : PyArr) → containsUuidA (mjsArr xs) = false
  | .nil => rfl
  | .cons v rest => by
    rw [mjsArr, containsUuidA, mjsNoUuidV v, mjsNoUuidA rest]
    rfl
end

/-- C9 counterexample: the claim as stated is false for timestamps — a change
payload holding a raw datetime under a dict key passes through
`_make_json_safe` unchanged, so the normalized output still contains a raw
datetime object. -/
theorem c9_counterexample_datetime_survives :
    containsDatetimeV (make_json_safe
      (PyVal.dict (PyDict.cons "timestamp"
        (PyVal.datetime "2024-01-01T00:00:00") PyDict.nil))) = true := rfl

/-- C9 (amended): for every change payload, the normalization applied before
audit recording produces an output containing no raw UUID object at any
nesting depth — every UUID appears only string-serialized; raw datetime
objects, however, are not serialized and pass through unchanged. -/
theorem c9_json_safe_no_raw_uuid :
    (∀ v : PyVal, containsUuidV (make_json_safe v) = false) ∧
    (∀ s : String, make_json_safe (PyVal.datetime s) = PyVal.datetime s) := by
  exact ⟨fun v => mjsNoUuidV v, fun s => rfl⟩

/-! ### Claim C7 -/

/-- C7: with the integration disabled, `create_or_update_asset_secret`
returns an empty result immediately — no vault-id lookup, no title search, no
create, no update (the operation list is empty), the vault state is
untouched, and no error is raised. -/
theorem c7_sync_disabled_is_noop (s : Settings) (st : VaultState)
    (asset : StoredAsset) (mc : Option ManagementController)
    (mcreds ocreds : Option CredDict) (hdis : s.onepassword_enabled = false) :
    create_or_update_asset_secret s st asset mc mcreds ocreds =
      { state := st, ops := [], result := Except.ok none } := by
  simp [create_or_update_asset_secret, hdis]

/-- C7 witness: the disabled-integration no-op evaluated on a concrete
configuration, vault state and asset. -/
theorem c7_sync_disabled_is_noop_witness :
    (Settings.mk false "Computer-Inventory" "asset-{asset_id}").onepassword_enabled = false ∧
    create_or_update_asset_secret
        (Settings.mk false "Computer-Inventory" "asset-{asset_id}")
        (VaultState.mk [("Computer-Inventory", "v1")] [] 0)
        assetA none none none =
      { state := VaultState.mk [("Computer-Inventory", "v1")] [] 0,
        ops := [], result := Except.ok none } :=
  ⟨rfl, c7_sync_disabled_is_noop
    (Settings.mk false "Computer-Inventory" "asset-{asset_id}")
    (VaultState.mk [("Computer-Inventory", "v1")] [] 0)
    assetA none none none rfl⟩

/-! ### Claim C6 -/

theorem countP_map_of_pointwise {α : Type} (f : α → α) (q : α → Bool)
    (l : List α) (h : ∀ a ∈ l, q (f a) = q a) :
    (l.map f).countP q = l.countP q := by
  rw [List.countP_map]
  exact List.countP_congr (fun a ha => by simp [Function.comp, h a ha])

theorem mem_eq_of_length_le_one {α : Type} {l : List α} (h : l.length ≤ 1)
    {a b : α} (ha : a ∈ l) (hb : b ∈ l) : a = b := by
  cases l with
  | nil => cases ha
  | cons x xs =>
    cases xs with
    | nil =>
      simp only [List.mem_singleton] at ha hb
      rw [ha, hb]
    | cons y ys => simp at h

theorem eq_of_countP_le_one {α : Type} {l : List α} {q : α → Bool}
    (h : l.countP q ≤ 1) {a b : α} (ha : a ∈ l) (hqa : q a = true)
    (hb : b ∈ l) (hqb : q b = true) : a = b := by
  rw [List.countP_eq_length_filter] at h
  exact mem_eq_of_length_le_one h (List.mem_filter.mpr ⟨ha, hqa⟩)
    (List.mem_filter.mpr ⟨hb, hqb⟩)

theorem find_secret_some_elim {st : VaultState} {vid title : String}
    {ex : VaultItem} (h : find_secret_by_title st vid title = some ex) :
    ∃ p ∈ st.items, p.1 = vid ∧ p.2 = ex ∧ ex.title = title := by
  unfold find_secret_by_title itemsTitled at h
  cases hf : List.filter (fun p => p.1 == vid && p.2.title == title) st.items with
  | nil => rw [hf] at h; cases h
  | cons p0 rest =>
    rw [hf] at h
    simp only [List.map_cons, List.head?_cons, Option.some.injEq] at h
    have hp0 : p0 ∈ List.filter (fun p => p.1 == vid && p.2.title == title) st.items := by
      rw [hf]; exact List.mem_cons_self p0 rest
    obtain ⟨hmem, hq⟩ := List.mem_filter.mp hp0
    simp only [Bool.and_eq_true, beq_iff_eq] at hq
    exact ⟨p0, hmem, hq.1, h, h ▸ hq.2⟩

theorem find_secret_none_iff {st : VaultState} {vid title : String} :
    find_secret_by_title st vid title = none ↔ countTitle st vid title = 0 := by
  unfold find_secret_by_title itemsTitled countTitle
  rw [List.countP_eq_length_filter]
  constructor
  · intro h
    cases hf : List.filter (fun p => p.1 == vid && p.2.title == title) st.items with
    | nil => rfl
    | cons p0 rest =>
      rw [hf] at h
      simp at h
  · intro h
    have : List.filter (fun p => p.1 == vid && p.2.title == title) st.items = [] :=
      List.eq_nil_of_length_eq_zero h
    rw [this]
    rfl

theorem put_replace_preserves_title_counts (items : List (String × VaultItem))
    (vid0 : String) (newItem ex : VaultItem) (p0 : String × VaultItem)
    (hp0 : p0 ∈ items) (hp0v : p0.1 = vid0) (hp0i : p0.2 = ex)
    (hTitle : newItem.title = ex.title)
    (huniq : items.countP (fun p => p.1 == vid0 && p.2.id == ex.id) ≤ 1)
    (vid title : String) :
    (items.map (fun p => if p.1 == vid0 && p.2.id == ex.id then (p.1, newItem) else p)).countP
        (fun p => p.1 == vid && p.2.title == title)
      = items.countP (fun p => p.1 == vid && p.2.title == title) := by
  apply countP_map_of_pointwise
  intro a ha
  by_cases hc : (a.1 == vid0 && a.2.id == ex.id) = true
  · have hp0c : (p0.1 == vid0 && p0.2.id == ex.id) = true := by
      simp [hp0v, hp0i]
    have hae : a = p0 := eq_of_countP_le_one huniq ha hc hp0 hp0c
    have hat : a.2.title = newItem.title := by
      rw [hae, hp0i, hTitle]
    simp only [hc, if_true]
    simp [hat]
  · simp only [Bool.not_eq_true] at hc
    simp [hc]

theorem put_replace_preserves_id_counts (items : List (String × VaultItem))
    (vid0 : String) (newItem ex : VaultItem) (hNew : newItem.id = ex.id)
    (vid' : String) (i : Nat) :
    (items.map (fun p => if p.1 == vid0 && p.2.id == ex.id then (p.1, newItem) else p)).countP
        (fun p => p.1 == vid' && p.2.id == i)
      = items.countP (fun p => p.1 == vid' && p.2.id == i) := by
  apply countP_map_of_pointwise
  intro a ha
  by_cases hc : (a.1 == vid0 && a.2.id == ex.id) = true
  · have hai : a.2.id = ex.id := by
      have := (Bool.and_eq_true _ _).mp hc
      exact beq_iff_eq.mp this.2
    simp only [hc, if_true]
    simp [hNew, hai]
  · simp only [Bool.not_eq_true] at hc
    simp [hc]

theorem put_replace_ids_below (items : List (String × VaultItem))
    (vid0 : String) (newItem ex : VaultItem) (ctr : Nat)
    (hNew : newItem.id = ex.id) (hexlt : ex.id < ctr)
    (hlt : ∀ p ∈ items, p.2.id < ctr) :
    ∀ q ∈ items.map (fun p => if p.1 == vid0 && p.2.id == ex.id then (p.1, newItem) else p),
      q.2.id < ctr := by
  intro q hq
  obtain ⟨a, ha, rfl⟩ := List.mem_map.mp hq
  by_cases hc : (a.1 == vid0 && a.2.id == ex.id) = true
  · simp only [hc, if_true]
    rw [hNew]
    exact hexlt
  · simp only [Bool.not_eq_true] at hc
    simp only [hc, Bool.false_eq_true, if_false]
    exact hlt a ha

theorem sync_put_eq {s : Settings} {st : VaultState} {asset : StoredAsset}
    {mc : Option ManagementController} {mcreds ocreds : Option CredDict}
    {vid0 : String} {ex : VaultItem}
    (hen : s.onepassword_enabled = true) (hvid : get_vault_id s st = Except.ok vid0)
    (hfind : find_secret_by_title st vid0
      (formatSecretTemplate s.op_secret_template asset.id) = some ex) :
    create_or_update_asset_secret s st asset mc mcreds ocreds =
      { state := { st with items := st.items.map (fun p =>
          if p.1 == vid0 && p.2.id == ex.id then
            (p.1, syncItem s asset mc mcreds ocreds vid0 ex.id) else p) },
        ops := [VaultOp.getVaults,
                VaultOp.listItems vid0 (formatSecretTemplate s.op_secret_template asset.id),
                VaultOp.putItem vid0 ex.id],
        result := Except.ok (some ex.id) } := by
  simp [create_or_update_asset_secret, hen, hvid, hfind, syncItem]

theorem sync_post_eq {s : Settings} {st : VaultState} {asset : StoredAsset}
    {mc : Option ManagementController} {mcreds ocreds : Option CredDict}
    {vid0 : String}
    (hen : s.onepassword_enabled = true) (hvid : get_vault_id s st = Except.ok vid0)
    (hfind : find_secret_by_title st vid0
      (formatSecretTemplate s.op_secret_template asset.id) = none) :
    create_or_update_asset_secret s st asset mc mcreds ocreds =
      { state := { st with
          items := st.items ++ [(vid0, syncItem s asset mc mcreds ocreds vid0 st.counter)],
          counter := st.counter + 1 },
        ops := [VaultOp.getVaults,
                VaultOp.listItems vid0 (formatSecretTemplate s.op_secret_template asset.id),
                VaultOp.postItem vid0],
        result := Except.ok (some st.counter) } := by
  simp [create_or_update_asset_secret, hen, hvid, hfind, syncItem]

theorem syncItem_id (s : Settings) (asset : StoredAsset)
    (mc : Option ManagementController) (mcreds ocreds : Option CredDict)
    (vid : String) (itemId : Nat) :
    (syncItem s asset mc mcreds ocreds vid itemId).id = itemId := rfl

theorem syncItem_title (s : Settings) (asset : StoredAsset)
    (mc : Option ManagementController) (mcreds ocreds : Option CredDict)
    (vid : String) (itemId : Nat) :
    (syncItem s asset mc mcreds ocreds vid itemId).title =
      formatSecretTemplate s.op_secret_template asset.id := rfl

theorem sync_step_preserves (s : Settings) (st : VaultState) (asset : StoredAsset)
    (mc : Option ManagementController) (mcreds ocreds : Option CredDict) :
    (create_or_update_asset_secret s st asset mc mcreds ocreds).state.vaults = st.vaults ∧
    (st.wf → (create_or_update_asset_secret s st asset mc mcreds ocreds).state.wf) ∧
    (∀ vid title, st.wf → countTitle st vid title ≤ 1 →
      countTitle (create_or_update_asset_secret s st asset mc mcreds ocreds).state vid title ≤ 1) := by
  by_cases hen : s.onepassword_enabled
  case neg =>
    simp [create_or_update_asset_secret, hen]
  case pos =>
    have hen' : s.onepassword_enabled = true := hen
    cases hvid : get_vault_id s st with
    | error e =>
      simp [create_or_update_asset_secret, hen, hvid]
    | ok vid0 =>
      cases hfind : find_secret_by_title st vid0 (formatSecretTemplate s.op_secret_template asset.id) with
      | some ex =>
        obtain ⟨p0, hp0mem, hp0v, hp0i, hextitle⟩ := find_secret_some_elim hfind
        rw [sync_put_eq hen' hvid hfind]
        refine ⟨rfl, ?_, ?_⟩
        · intro hwf
          constructor
          · intro vid' i
            simp only [countId]
            rw [put_replace_preserves_id_counts st.items vid0
              (syncItem s asset mc mcreds ocreds vid0 ex.id) ex (syncItem_id _ _ _ _ _ _ _) vid' i]
            exact hwf.1 vid' i
          · intro q hq
            have hexlt : ex.id < st.counter := by
              have := hwf.2 p0 hp0mem
              rw [hp0i] at this
              exact this
            exact put_replace_ids_below st.items vid0
              (syncItem s asset mc mcreds ocreds vid0 ex.id) ex st.counter
              (syncItem_id _ _ _ _ _ _ _) hexlt hwf.2 q hq
        · intro vid title hwf hcount
          simp only [countTitle]
          rw [put_replace_preserves_title_counts st.items vid0
            (syncItem s asset mc mcreds ocreds vid0 ex.id) ex p0 hp0mem hp0v hp0i
            (by rw [syncItem_title, ← hextitle])
            (by have := hwf.1 vid0 ex.id; simpa [countId] using this) vid title]
          exact hcount
      | none =>
        rw [sync_post_eq hen' hvid hfind]
        refine ⟨rfl, ?_, ?_⟩
        · intro hwf
          constructor
          · intro vid' i
            simp only [countId, List.countP_append, List.countP_cons, List.countP_nil]
            by_cases hq : ((vid0 == vid') &&
                ((syncItem s asset mc mcreds ocreds vid0 st.counter).id == i)) = true
            · have hi : i = st.counter := by
                have h2 := (Bool.and_eq_true _ _).mp hq
                have := beq_iff_eq.mp h2.2
                rw [syncItem_id] at this
                exact this.symm
              have hzero : st.items.countP (fun p => p.1 == vid' && p.2.id == i) = 0 := by
                rw [List.countP_eq_zero]
                intro p hp hqq
                have hpid : p.2.id = i := by
                  have := (Bool.and_eq_true _ _).mp hqq
                  exact beq_iff_eq.mp this.2
                have hlt := hwf.2 p hp
                rw [hpid, hi] at hlt
                exact absurd hlt (lt_irrefl _)
              rw [hzero, hq]
              simp
            · rw [Bool.not_eq_true] at hq
              rw [hq]
              simp only [Bool.false_eq_true, if_false, Nat.add_zero, Nat.zero_add]
              have := hwf.1 vid' i
              simp only [countId] at this
              omega
          · intro q hq
            rcases List.mem_append.mp hq with hin | hsing
            · exact Nat.lt_succ_of_lt (hwf.2 q hin)
            · rw [List.mem_singleton.mp hsing]
              exact Nat.lt_succ_self _
        · intro vid title hwf hcount
          simp only [countTitle, List.countP_append, List.countP_cons, List.countP_nil]
          by_cases hq : ((vid0 == vid) &&
              ((syncItem s asset mc mcreds ocreds vid0 st.counter).title == title)) = true
          · have h2 := (Bool.and_eq_true _ _).mp hq
            have hv : vid0 = vid := beq_iff_eq.mp h2.1
            have ht : title = formatSecretTemplate s.op_secret_template asset.id := by
              have := beq_iff_eq.mp h2.2
              rw [syncItem_title] at this
              exact this.symm
            have hzero : countTitle st vid title = 0 := by
              rw [← hv, ht]
              exact find_secret_none_iff.mp hfind
            simp only [countTitle] at hzero
            rw [hzero, hq]
            simp
          · rw [Bool.not_eq_true] at hq
            rw [hq]
            simp only [Bool.false_eq_true, if_false, Nat.add_zero, Nat.zero_add]
            have := hcount
            simp only [countTitle] at this
            omega

theorem syncIter_count_le_one (s : Settings) (asset : StoredAsset)
    (mc : Option ManagementController) (mcreds ocreds : Option CredDict)
    (vid title : String) :
    ∀ (n : Nat) (st : VaultState), st.wf → countTitle st vid title ≤ 1 →
      countTitle (syncIter s asset mc mcreds ocreds n st) vid title ≤ 1
  | 0, st, _, hcount => by simpa [syncIter] using hcount
  | n + 1, st, hwf, hcount => by
    rw [syncIter]
    obtain ⟨hv, hwfp, hcp⟩ := sync_step_preserves s st asset mc mcreds ocreds
    exact syncIter_count_le_one s asset mc mcreds ocreds vid title n _
      (hwfp hwf) (hcp vid title hwf hcount)

/-- C6: with the integration enabled and the configured vault resolved, the
sync is idempotent by the asset's templated title: when an item with that
title exists it is replaced in place — same item count, the existing item's
id returned; when none exists one item is created and its fresh id returned;
and from any well-formed vault state holding at most one item with that
title, any sequence of sync calls for the same asset keeps at most one item
with that title. -/
theorem c6_sync_idempotent_by_title (s : Settings) (st : VaultState)
    (asset : StoredAsset) (mc : Option ManagementController)
    (mcreds ocreds : Option CredDict) (vid : String)
    (hen : s.onepassword_enabled = true)
    (hvid : get_vault_id s st = Except.ok vid) (hwf : st.wf) :
    (∀ ex, find_secret_by_title st vid (formatSecretTemplate s.op_secret_template asset.id) = some ex →
      (create_or_update_asset_secret s st asset mc mcreds ocreds).result = Except.ok (some ex.id) ∧
      (create_or_update_asset_secret s st asset mc mcreds ocreds).state.items.length = st.items.length ∧
      countTitle (create_or_update_asset_secret s st asset mc mcreds ocreds).state vid
          (formatSecretTemplate s.op_secret_template asset.id)
        = countTitle st vid (formatSecretTemplate s.op_secret_template asset.id)) ∧
    (find_secret_by_title st vid (formatSecretTemplate s.op_secret_template asset.id) = none →
      (create_or_update_asset_secret s st asset mc mcreds ocreds).result = Except.ok (some st.counter) ∧
      countTitle (create_or_update_asset_secret s st asset mc mcreds ocreds).state vid
          (formatSecretTemplate s.op_secret_template asset.id)
        = countTitle st vid (formatSecretTemplate s.op_secret_template asset.id) + 1) ∧
    (countTitle st vid (formatSecretTemplate s.op_secret_template asset.id) ≤ 1 →
      ∀ n, countTitle (syncIter s asset mc mcreds ocreds n st) vid
          (formatSecretTemplate s.op_secret_template asset.id) ≤ 1) := by
  refine ⟨?_, ?_, ?_⟩
  · intro ex hfind
    obtain ⟨p0, hp0mem, hp0v, hp0i, hextitle⟩ := find_secret_some_elim hfind
    rw [sync_put_eq hen hvid hfind]
    refine ⟨rfl, by simp, ?_⟩
    simp only [countTitle]
    rw [put_replace_preserves_title_counts st.items vid
      (syncItem s asset mc mcreds ocreds vid ex.id) ex p0 hp0mem hp0v hp0i
      (by rw [syncItem_title, ← hextitle])
      (by have := hwf.1 vid ex.id; simpa [countId] using this) vid
      (formatSecretTemplate s.op_secret_template asset.id)]
  · intro hfind
    rw [sync_post_eq hen hvid hfind]
    refine ⟨rfl, ?_⟩
    simp [countTitle, List.countP_append, List.countP_cons, syncItem_title]
  · intro hcount n
    exact syncIter_count_le_one s asset mc mcreds ocreds vid
      (formatSecretTemplate s.op_secret_template asset.id) n st hwf hcount

/-- C6 witness: the idempotency contract applied to the enabled configuration
fixture, the empty one-vault state and asset A. -/
theorem c6_sync_idempotent_by_title_witness :
    settingsOn.onepassword_enabled = true ∧
    get_vault_id settingsOn vaultEmpty = Except.ok "v1" ∧
    vaultEmpty.wf ∧
    ((∀ ex, find_secret_by_title vaultEmpty "v1" (formatSecretTemplate settingsOn.op_secret_template assetA.id) = some ex →
      (create_or_update_asset_secret settingsOn vaultEmpty assetA none none none).result = Except.ok (some ex.id) ∧
      (create_or_update_asset_secret settingsOn vaultEmpty assetA none none none).state.items.length = vaultEmpty.items.length ∧
      countTitle (create_or_update_asset_secret settingsOn vaultEmpty assetA none none none).state "v1"
          (formatSecretTemplate settingsOn.op_secret_template assetA.id)
        = countTitle vaultEmpty "v1" (formatSecretTemplate settingsOn.op_secret_template assetA.id)) ∧
    (find_secret_by_title vaultEmpty "v1" (formatSecretTemplate settingsOn.op_secret_template assetA.id) = none →
      (create_or_update_asset_secret settingsOn vaultEmpty assetA none none none).result = Except.ok (some vaultEmpty.counter) ∧
      countTitle (create_or_update_asset_secret settingsOn vaultEmpty assetA none none none).state "v1"
          (formatSecretTemplate settingsOn.op_secret_template assetA.id)
        = countTitle vaultEmpty "v1" (formatSecretTemplate settingsOn.op_secret_template assetA.id) + 1) ∧
    (countTitle vaultEmpty "v1" (formatSecretTemplate settingsOn.op_secret_template assetA.id) ≤ 1 →
      ∀ n, countTitle (syncIter settingsOn assetA none none none n vaultEmpty) "v1"
          (formatSecretTemplate settingsOn.op_secret_template assetA.id) ≤ 1)) :=
  ⟨rfl, rfl,
   ⟨fun vid i => by simp [countId, vaultEmpty], fun p hp => by simp [vaultEmpty] at hp⟩,
   c6_sync_idempotent_by_title settingsOn vaultEmpty assetA none none none "v1" rfl rfl
     ⟨fun vid i => by simp [countId, vaultEmpty], fun p hp => by simp [vaultEmpty] at hp⟩⟩
